import Mathlib

/-!
Verification development for the Bugger dashboard state engine
(`src/index.tsx`).  The React component `BuggerApp` is embedded shallowly:
its `useState` cells become the fields of `AppState`, each handler or
interval callback becomes a pure state-transition function, and every call
to `Math.random()` / `new Date()` becomes an explicitly injected input.
Numbers are modelled as exact rationals (`ℚ`); the JavaScript value
`undefined` (which can reach `metrics.threatLevel` when the parsed oracle
response lacks `overallThreatScore`) is modelled as `none` in `Option ℚ`.
-/

/-- Log severity level, from the `LogEntry` interface (src/index.tsx line 10). -/
inductive LogLevel where
  | info
  | warning
  | error
  | security
deriving DecidableEq, Repr

/-- A log entry, from the `LogEntry` interface (src/index.tsx lines 7-13). -/
structure LogEntry where
  id : String
  timestamp : String
  level : LogLevel
  message : String
  source : String
deriving DecidableEq, Repr

/-- Threat lifecycle status, from the `Threat` interface (line 21). -/
inductive ThreatStatus where
  | active
  | patched
  | analyzing
deriving DecidableEq, Repr

/-- A threat, from the `Threat` interface (lines 15-22).  The four textual
fields are `Option String` because at runtime they are populated by
spreading an unvalidated parsed-JSON object (`{...f}` at line 137), so a
field the oracle omitted is the JavaScript value `undefined` (= `none`). -/
structure Threat where
  id : String
  type : Option String
  severity : Option String
  description : Option String
  remediation : Option String
  status : ThreatStatus
deriving DecidableEq, Repr

/-- The four gauges, from the `SystemMetrics` interface (lines 24-29).
`threatLevel` is `Option ℚ` because line 142 assigns
`result.overallThreatScore` to it unvalidated, so it can become
`undefined`/non-numeric; `none` models that. -/
structure SystemMetrics where
  cpu : ℚ
  memory : ℚ
  network : ℚ
  threatLevel : Option ℚ
deriving DecidableEq, Repr

/-- The whole mutable state of `BuggerApp`: one field per `useState` cell
(lines 37-42). -/
structure AppState where
  logs : List LogEntry
  threats : List Threat
  metrics : SystemMetrics
  isShieldActive : Bool
  isScanning : Bool
  terminalText : String
deriving DecidableEq, Repr

/-- Source-subsystem catalog, `LOG_SOURCES` (line 32). -/
def LOG_SOURCES : List String :=
  ["Kernel", "AuthSvc", "NetStack", "DataLayer", "UIRenderer", "LeakGuard"]

/-- Mock-message catalog, the `msgs` array of `generateMockMessage`
(lines 77-87). -/
def MOCK_MESSAGES : List String :=
  ["Heartbeat signal received",
   "GET /api/v1/user 200 OK",
   "Cache invalidated for key: session_4x9",
   "Memory cleanup routine triggered",
   "Inbound packet from 192.168.1.45 accepted",
   "Database connection pool synchronized",
   "Third-party endpoint blocked by LeakGuard",
   "Unexpected token in JSON parsing attempt",
   "Resource allocation threshold reached"]

/-- `msgs[Math.floor(Math.random() * msgs.length)]` (line 88), with the
uniform draw `u ∈ [0,1)` made explicit. -/
def generateMockMessage (u : ℚ) : String :=
  MOCK_MESSAGES.getD (Rat.floor (u * 9)).toNat ""

/-- `LOG_SOURCES[Math.floor(Math.random() * LOG_SOURCES.length)]` (line 61). -/
def pickLogSource (u : ℚ) : String :=
  LOG_SOURCES.getD (Rat.floor (u * 6)).toNat ""

/-- The level draw of a telemetry tick (line 59):
`Math.random() > 0.9 ? 'error' : (Math.random() > 0.8 ? 'warning' : 'info')`.
Note the source calls `Math.random()` TWICE: `u1` is the first call, `u2`
the second (the second call is only evaluated when `u1 ≤ 0.9`, which the
eager `if` below reproduces observably, `u2` being unused otherwise). -/
def drawLevel (u1 u2 : ℚ) : LogLevel :=
  if u1 > 9/10 then LogLevel.error
  else if u2 > 8/10 then LogLevel.warning
  else LogLevel.info

/-- `Math.min(100, Math.max(0, x))` — the gauge clamp of lines 67-69. -/
def clampGauge (x : ℚ) : ℚ := min 100 (max 0 x)

/-- `arr.slice(-n)` for a JavaScript array: the last `min n (length)`
elements (used as `prev.slice(-49)` at line 63). -/
def sliceLast {α : Type} (n : Nat) (l : List α) : List α :=
  l.drop (l.length - n)

/-- The injected inputs of one telemetry tick (lines 55-71): the id token
produced by `Math.random().toString(36).substr(2, 9)`, the wall-clock
timestamp string, and the six uniform draws the callback consumes. -/
structure TickInput where
  idTok : String
  ts : String
  u1 : ℚ
  u2 : ℚ
  umsg : ℚ
  usrc : ℚ
  ucpu : ℚ
  umem : ℚ
  unet : ℚ
deriving DecidableEq, Repr

/-- The `newLog` object built by the telemetry interval (lines 56-62). -/
def mkLogEntry (inp : TickInput) : LogEntry :=
  { id := inp.idTok
    timestamp := inp.ts
    level := drawLevel inp.u1 inp.u2
    message := generateMockMessage inp.umsg
    source := pickLogSource inp.usrc }

/-- One telemetry tick (the `setInterval` callback, lines 55-71):
`setLogs(prev => [...prev.slice(-49), newLog])` and the fluctuating-metrics
update `prev + (Math.random() - 0.5) * scale` clamped into `[0,100]`,
with `threatLevel: prev.threatLevel` untouched. -/
def telemetryTick (inp : TickInput) (st : AppState) : AppState :=
  { st with
    logs := sliceLast 49 st.logs ++ [mkLogEntry inp]
    metrics :=
      { cpu := clampGauge (st.metrics.cpu + (inp.ucpu - 1/2) * 5)
        memory := clampGauge (st.metrics.memory + (inp.umem - 1/2) * 2)
        network := clampGauge (st.metrics.network + (inp.unet - 1/2) * 10)
        threatLevel := st.metrics.threatLevel } }

/-- A sequence of telemetry ticks, applied oldest first. -/
def applyTicks (inps : List TickInput) (st : AppState) : AppState :=
  inps.foldl (fun s i => telemetryTick i s) st

/-- One oracle finding as the JavaScript runtime sees it after
`JSON.parse`: each of the four schema fields may be absent (`undefined`),
since the code never validates the parsed object (lines 133-139). -/
structure Finding where
  type : Option String
  severity : Option String
  description : Option String
  remediation : Option String
deriving DecidableEq, Repr

/-- The parsed oracle response object (`result`, line 133): `findings` is
`none` when the parsed value has no array there (in which case
`result.findings.map` throws and the `catch` runs), and
`overallThreatScore` is `none` when that property is absent. -/
structure ScanResult where
  findings : Option (List Finding)
  overallThreatScore : Option ℚ
deriving DecidableEq, Repr

/-- Outcome of the awaited oracle round-trip: `failure` covers a transport
or API error as well as a `JSON.parse` throw (both land in the `catch` at
line 145); `success r` is a parsed JavaScript object. -/
inductive ScanOutcome where
  | failure
  | success (r : ScanResult)
deriving DecidableEq, Repr

/-- `{id: Math.random()..., ...f, status: 'active'}` (lines 136-138): the
threat built from one finding and one fresh id token.  The spread comes
after `id` and before `status`, so with the four schema fields modelled the
id is the fresh token and the status is always `active`. -/
def mkThreat (idTok : String) (f : Finding) : Threat :=
  { id := idTok
    type := f.type
    severity := f.severity
    description := f.description
    remediation := f.remediation
    status := ThreatStatus.active }

/-- `result.findings.map(f => ({id: ..., ...f, status: 'active'}))`
(lines 135-139): each finding gets its own fresh id draw, modelled by
indexing the injected token source `freshId` with the finding's position. -/
def ingestFindings (freshId : Nat → String) (fs : List Finding) : List Threat :=
  fs.enum.map (fun p => mkThreat (freshId p.1) p.2)

/-- The terminal text set when a scan starts (line 94). -/
def initText : String :=
  "Initializing neural scan... \nAccessing application bytecode... \nAnalyzing outbound patterns..."

/-- The terminal text of a completed scan (line 143). -/
def doneText : String := "Scan Complete. Vulnerabilities cataloged."

/-- The terminal text of a failed scan (line 147). -/
def failText : String := "Scan interrupted: Connection to AI core lost."

/-- `handleDeepScan` (lines 91-151), as a pure transition parameterised by
the fresh-id source and the oracle outcome.  The returned `Bool` is `true`
exactly when an oracle request was issued (the body past the re-entrancy
guard `if (isScanning) return`).  On success the code runs
`setThreats(prev => [...newThreats, ...prev].slice(0, 10))` and then
`setMetrics(prev => ({...prev, threatLevel: result.overallThreatScore}))`;
if `result.findings` is absent, `result.findings.map` throws and the
`catch` runs instead; the `finally` clears `isScanning` on every path
past the guard. -/
def handleDeepScan (freshId : Nat → String) (outcome : ScanOutcome)
    (st : AppState) : AppState × Bool :=
  if st.isScanning then (st, false)
  else
    let st1 : AppState := { st with isScanning := true, terminalText := initText }
    let st2 : AppState :=
      match outcome with
      | ScanOutcome.failure => { st1 with terminalText := failText }
      | ScanOutcome.success r =>
        match r.findings with
        | none => { st1 with terminalText := failText }
        | some fs =>
          { st1 with
            threats := ((ingestFindings freshId fs) ++ st1.threats).take 10
            metrics := { st1.metrics with threatLevel := r.overallThreatScore }
            terminalText := doneText }
    ({ st2 with isScanning := false }, true)

/-- A sequence of scans (fresh-id source and outcome for each), applied in
order. -/
def applyScans (scans : List ((Nat → String) × ScanOutcome)) (st : AppState) :
    AppState :=
  scans.foldl (fun s p => (handleDeepScan p.1 p.2 s).1) st

/-- The `patchLog` audit entry built by `patchThreat` (lines 157-163):
note the deterministic id `'patch-' + id`. -/
def auditLog (ts id : String) : LogEntry :=
  { id := "patch-" ++ id
    timestamp := ts
    level := LogLevel.security
    message := "THREAT NEUTRALIZED: Applied patch to system core"
    source := "LeakGuard" }

/-- `Math.max(0, prev.threatLevel - 15)` (line 155); on a non-numeric
(`undefined`/NaN) level the subtraction and `Math.max` stay non-numeric. -/
def decayThreatLevel : Option ℚ → Option ℚ
  | some q => some (max 0 (q - 15))
  | none => none

/-- `patchThreat(id)` (lines 153-165).  All three effects are
unconditional: the status map, the threat-level decay, and the audit-log
append happen whether or not `id` matches anything. -/
def patchThreat (ts id : String) (st : AppState) : AppState :=
  { st with
    threats := st.threats.map (fun t =>
      if t.id = id then { t with status := ThreatStatus.patched } else t)
    metrics := { st.metrics with
      threatLevel := decayThreatLevel st.metrics.threatLevel }
    logs := st.logs ++ [auditLog ts id] }

/-- `clearPatched` (lines 167-169):
`setThreats(prev => prev.filter(t => t.status !== 'patched'))`. -/
def clearPatched (st : AppState) : AppState :=
  { st with threats := st.threats.filter (fun t => t.status ≠ ThreatStatus.patched) }

/-- The initial state of `BuggerApp` (lines 37-42). -/
def initialState : AppState :=
  { logs := []
    threats := []
    metrics := { cpu := 12, memory := 45, network := 8, threatLevel := some 2 }
    isShieldActive := true
    isScanning := false
    terminalText := "" }

/-- Demo threat used by concrete witnesses. -/
def demoThreat : Threat :=
  { id := "t1", type := some "leak", severity := some "high",
    description := some "d", remediation := some "r",
    status := ThreatStatus.active }

/-- Demo already-patched threat used by concrete witnesses. -/
def patchedThreat : Threat :=
  { demoThreat with id := "t0", status := ThreatStatus.patched }

/-- State with one patched and one active threat, for witnesses. -/
def clearDemo : AppState := { initialState with threats := [patchedThreat, demoThreat] }

/-- State with one active threat and threatLevel 50, for witnesses. -/
def patchDemo : AppState :=
  { initialState with
    threats := [demoThreat]
    metrics := { cpu := 12, memory := 45, network := 8, threatLevel := some 50 } }

/-- State already in the Scanning phase, for witnesses. -/
def scanningState : AppState := { initialState with isScanning := true }

/-- C1, counterexample.  The claim says `patch("nonexistent")` leaves
MetricsState and LogStore unchanged, but `patchThreat` (lines 153-165)
decays the threat level and appends the audit entry unconditionally:
starting from the initial state (empty registry, threatLevel 2), patching
the unknown id "nonexistent" changes both the log store and the threat
level. -/
theorem c1_counterexample :
    (patchThreat "12:00:00" "nonexistent" initialState).logs ≠ initialState.logs ∧
    (patchThreat "12:00:00" "nonexistent" initialState).metrics.threatLevel
      ≠ initialState.metrics.threatLevel := by
  constructor
  · simp [patchThreat, initialState]
  · norm_num [patchThreat, initialState, decayThreatLevel]

/-- C1, amended.  On a no-op patch (no threat with the id, or every match
already patched) the ThreatRegistry is indeed unchanged, but the
threatLevel decay and the audit-log append still occur unconditionally;
and a second `patch(id)` yields the same registry (same final status) as
the first call, while each call appends one more log entry and performs
one more decay. -/
theorem c1_amended :
    (∀ (st : AppState) (ts tid : String),
      (∀ t ∈ st.threats, t.id = tid → t.status = ThreatStatus.patched) →
        (patchThreat ts tid st).threats = st.threats ∧
        (patchThreat ts tid st).logs = st.logs ++ [auditLog ts tid] ∧
        (patchThreat ts tid st).metrics.threatLevel
          = decayThreatLevel st.metrics.threatLevel) ∧
    (∀ (st : AppState) (ts1 ts2 tid : String),
      (patchThreat ts2 tid (patchThreat ts1 tid st)).threats
        = (patchThreat ts1 tid st).threats ∧
      (patchThreat ts2 tid (patchThreat ts1 tid st)).logs
        = (patchThreat ts1 tid st).logs ++ [auditLog ts2 tid] ∧
      (patchThreat ts2 tid (patchThreat ts1 tid st)).metrics.threatLevel
        = decayThreatLevel (patchThreat ts1 tid st).metrics.threatLevel) := by
  constructor
  · intro st ts tid h
    refine ⟨?_, rfl, rfl⟩
    have h2 : ∀ t ∈ st.threats,
        (if t.id = tid then { t with status := ThreatStatus.patched } else t) = t := by
      intro t ht
      by_cases hc : t.id = tid
      · have hs := h t ht hc
        cases t
        simp_all
      · simp [hc]
    simpa [patchThreat] using List.map_congr_left h2
  · intro st ts1 ts2 tid
    refine ⟨?_, rfl, rfl⟩
    simp only [patchThreat]
    rw [List.map_map]
    apply List.map_congr_left
    intro t ht
    by_cases hc : t.id = tid
    · simp [Function.comp, hc]
    · simp [Function.comp, hc]

/-- C1, witness: the amended theorem applied at the initial state (empty
registry, so the no-op hypothesis holds vacuously). -/
theorem c1_witness :
    (patchThreat "09:00:00" "ghost" initialState).threats = initialState.threats ∧
    (patchThreat "09:00:00" "ghost" initialState).logs
      = initialState.logs ++ [auditLog "09:00:00" "ghost"] ∧
    (patchThreat "09:00:00" "ghost" initialState).metrics.threatLevel
      = decayThreatLevel initialState.metrics.threatLevel :=
  c1_amended.1 initialState "09:00:00" "ghost"
    (by intro t ht hid; simp [initialState] at ht)

/-- C2: the scan's write of the oracle score is NOT clamped.  Line 142
runs `setMetrics(prev => ({...prev, threatLevel: result.overallThreatScore}))`
with no `Math.min`/`Math.max`, contradicting the claim, the spec's
clamping invariant, and the code's own `threatLevel: number; // 0-100`
comment (line 28): a successful scan whose parsed response carries
`overallThreatScore = 150` leaves `threatLevel = 150 > 100`. -/
theorem c2_unclamped_threat_score :
    (handleDeepScan (fun _ => "tid")
        (ScanOutcome.success { findings := some [], overallThreatScore := some 150 })
        initialState).1.metrics.threatLevel = some 150 ∧
    ¬ (150 : ℚ) ≤ 100 := by
  constructor
  · rfl
  · norm_num

/-- C6: the re-entrancy guard and return-to-Idle of `handleDeepScan`
(lines 91-151).  If the phase is already Scanning the call returns the
state unchanged and issues no oracle request (the `Bool` component is the
request indicator); from Idle, whatever the outcome, a request is issued
and the `finally` (line 149) leaves the phase Idle again. -/
theorem c6_scan_guard_and_idle :
    ∀ (f : Nat → String) (o : ScanOutcome) (st : AppState),
      (st.isScanning = true → handleDeepScan f o st = (st, false)) ∧
      (st.isScanning = false →
        (handleDeepScan f o st).1.isScanning = false ∧
        (handleDeepScan f o st).2 = true) := by
  intro f o st
  constructor
  · intro h
    simp [handleDeepScan, h]
  · intro h
    cases o with
    | failure => simp [handleDeepScan, h]
    | success r =>
      cases hf : r.findings with
      | none => simp [handleDeepScan, h, hf]
      | some fs => simp [handleDeepScan, h, hf]

/-- C6, witness: the guard at a concrete Scanning state, and the
return-to-Idle at the concrete initial state with a failing oracle. -/
theorem c6_witness :
    handleDeepScan (fun _ => "x") ScanOutcome.failure scanningState
      = (scanningState, false) ∧
    (handleDeepScan (fun _ => "x") ScanOutcome.failure initialState).1.isScanning
      = false :=
  ⟨(c6_scan_guard_and_idle (fun _ => "x") ScanOutcome.failure scanningState).1 rfl,
   ((c6_scan_guard_and_idle (fun _ => "x") ScanOutcome.failure initialState).2 rfl).1⟩

/-- C9: `clearPatched` (lines 167-169) removes exactly the patched
entries: afterwards no entry is patched, the surviving sequence is a
sublist of the original (so the survivors are unchanged and keep their
relative order), and every entry that was not patched survives. -/
theorem c9_clear_patched_exact :
    ∀ st : AppState,
      (∀ t ∈ (clearPatched st).threats, t.status ≠ ThreatStatus.patched) ∧
      List.Sublist (clearPatched st).threats st.threats ∧
      (∀ t ∈ st.threats, t.status ≠ ThreatStatus.patched →
        t ∈ (clearPatched st).threats) := by
  intro st
  refine ⟨?_, ?_, ?_⟩
  · intro t ht
    have h2 : t ∈ st.threats ∧ ¬ t.status = ThreatStatus.patched := by
      simpa [clearPatched, List.mem_filter] using ht
    exact h2.2
  · simp only [clearPatched]
    exact List.filter_sublist st.threats
  · intro t ht hs
    simp only [clearPatched]
    simp [List.mem_filter, ht, hs]

/-- C9, witness: in a registry holding one patched and one active threat,
the active threat survives `clearPatched`. -/
theorem c9_witness : demoThreat ∈ (clearPatched clearDemo).threats :=
  (c9_clear_patched_exact clearDemo).2.2 demoThreat
    (by simp [clearDemo, initialState]) (by decide)

/-- C10: `patchThreat` (lines 153-165) on an id present in the registry
changes only the status of matching threats: registry length (and hence
order, by the per-index equalities) is preserved, every non-status field
of every entry is preserved, entries with a different id are untouched,
matching entries become `patched`, cpu/memory/network are untouched, and
threatLevel is decayed by 15 floored at 0. -/
theorem c10_patch_frame :
    ∀ (st : AppState) (ts tid : String),
      (∃ t ∈ st.threats, t.id = tid) →
      (patchThreat ts tid st).threats.length = st.threats.length ∧
      (∀ (i : Nat) (h1 : i < st.threats.length)
          (h2 : i < (patchThreat ts tid st).threats.length),
        ((patchThreat ts tid st).threats[i].id = st.threats[i].id ∧
         (patchThreat ts tid st).threats[i].type = st.threats[i].type ∧
         (patchThreat ts tid st).threats[i].severity = st.threats[i].severity ∧
         (patchThreat ts tid st).threats[i].description = st.threats[i].description ∧
         (patchThreat ts tid st).threats[i].remediation = st.threats[i].remediation) ∧
        (st.threats[i].id ≠ tid →
          (patchThreat ts tid st).threats[i] = st.threats[i]) ∧
        (st.threats[i].id = tid →
          (patchThreat ts tid st).threats[i].status = ThreatStatus.patched)) ∧
      (patchThreat ts tid st).metrics.cpu = st.metrics.cpu ∧
      (patchThreat ts tid st).metrics.memory = st.metrics.memory ∧
      (patchThreat ts tid st).metrics.network = st.metrics.network ∧
      (patchThreat ts tid st).metrics.threatLevel
        = decayThreatLevel st.metrics.threatLevel := by
  intro st ts tid _
  refine ⟨by simp [patchThreat], ?_, rfl, rfl, rfl, rfl⟩
  intro i h1 h2
  have he : (patchThreat ts tid st).threats[i]
      = (if st.threats[i].id = tid
          then { st.threats[i] with status := ThreatStatus.patched }
          else st.threats[i]) := by
    simp [patchThreat]
  rw [he]
  by_cases hc : st.threats[i].id = tid
  · simp [hc]
  · simp [hc]

/-- C10, witness: the frame condition at a concrete one-threat state. -/
theorem c10_witness :
    (patchThreat "10:00:00" "t1" patchDemo).threats.length
      = patchDemo.threats.length ∧
    (patchThreat "10:00:00" "t1" patchDemo).metrics.threatLevel
      = decayThreatLevel patchDemo.metrics.threatLevel :=
  ⟨(c10_patch_frame patchDemo "10:00:00" "t1"
      ⟨demoThreat, by simp [patchDemo], rfl⟩).1,
   (c10_patch_frame patchDemo "10:00:00" "t1"
      ⟨demoThreat, by simp [patchDemo], rfl⟩).2.2.2.2.2⟩

/-- Appending one entry after a `slice(-49)` trim of an already-trimmed
buffer equals trimming the snoc of the untrimmed history to its last 50
entries: the algebra behind `setLogs(prev => [...prev.slice(-49), newLog])`. -/
theorem sliceLast_succ_snoc {α : Type} (l : List α) (e : α) :
    sliceLast 49 (sliceLast 50 l) ++ [e] = sliceLast 50 (l ++ [e]) := by
  simp only [sliceLast, List.length_drop, List.drop_drop, List.length_append,
    List.length_singleton]
  rw [List.drop_append_of_le_length (by omega)]
  have hidx : l.length - 50 + (l.length - (l.length - 50) - 49)
      = l.length + 1 - 50 := by omega
  rw [hidx]

/-- The log buffer after a run of telemetry ticks is the last-50 window of
the full generated history, provided it started as such a window. -/
theorem applyTicks_logs (inps : List TickInput) (st : AppState)
    (L : List LogEntry) (h : st.logs = sliceLast 50 L) :
    (applyTicks inps st).logs = sliceLast 50 (L ++ inps.map mkLogEntry) := by
  induction inps generalizing st L with
  | nil => simpa [applyTicks] using h
  | cons i tl ih =>
    have hstep : applyTicks (i :: tl) st = applyTicks tl (telemetryTick i st) := rfl
    have h2 : (telemetryTick i st).logs = sliceLast 50 (L ++ [mkLogEntry i]) := by
      show sliceLast 49 st.logs ++ [mkLogEntry i] = _
      rw [h, sliceLast_succ_snoc]
    rw [hstep, ih (telemetryTick i st) (L ++ [mkLogEntry i]) h2]
    simp [List.append_assoc]

/-- A featureless tick input used by concrete counterexamples. -/
def demoTick : TickInput :=
  { idTok := "tok", ts := "00:00:00", u1 := 0, u2 := 0, umsg := 0, usrc := 0,
    ucpu := 1/2, umem := 1/2, unet := 1/2 }

/-- C3, counterexample.  The claim says every append — including the patch
audit append — evicts down to 50, so the snapshot length is always ≤ 50.
But `setLogs(prev => [...prev, patchLog])` (line 164) has no eviction: in
the reachable state produced by 50 telemetry ticks, one `patchThreat`
leaves 51 entries. -/
theorem c3_counterexample :
    ((patchThreat "00:01:40" "x"
        (applyTicks (List.replicate 50 demoTick) initialState)).logs).length = 51 ∧
    ¬ (51 ≤ 50) := by
  constructor
  · have h := applyTicks_logs (List.replicate 50 demoTick) initialState []
      (by simp [initialState, sliceLast])
    show ((applyTicks (List.replicate 50 demoTick) initialState).logs
        ++ [auditLog "00:01:40" "x"]).length = 51
    rw [h]
    simp [sliceLast, List.map_replicate]
  · omega

/-- C3, amended.  The telemetry append does evict: after every tick the
buffer holds `min prev 49 + 1 ≤ 50` entries, and after any run of ticks
from the initial (empty) store it holds exactly the last-50 window of the
generated history, in chronological order.  The patch audit append,
however, performs no eviction — it is a plain append — so the 50-cap can
be exceeded (transiently, until the next tick trims it back). -/
theorem c3_amended :
    (∀ (inp : TickInput) (st : AppState),
      ((telemetryTick inp st).logs).length = min st.logs.length 49 + 1) ∧
    (∀ (inp : TickInput) (st : AppState),
      ((telemetryTick inp st).logs).length ≤ 50) ∧
    (∀ inps : List TickInput,
      (applyTicks inps initialState).logs = sliceLast 50 (inps.map mkLogEntry)) ∧
    (∀ (st : AppState) (ts tid : String),
      (patchThreat ts tid st).logs = st.logs ++ [auditLog ts tid]) := by
  refine ⟨?_, ?_, ?_, fun st ts tid => rfl⟩
  · intro inp st
    show (sliceLast 49 st.logs ++ [mkLogEntry inp]).length = _
    simp [sliceLast]
    omega
  · intro inp st
    show (sliceLast 49 st.logs ++ [mkLogEntry inp]).length ≤ 50
    simp [sliceLast]
    omega
  · intro inps
    simpa using applyTicks_logs inps initialState [] (by simp [initialState, sliceLast])

/-- Every scan transition keeps the registry within the cap of 10:
the guard and failure paths leave it unchanged, the success path takes at
most 10 (`.slice(0, 10)` at line 141). -/
theorem handleDeepScan_threats_le (f : Nat → String) (o : ScanOutcome)
    (st : AppState) (h : st.threats.length ≤ 10) :
    ((handleDeepScan f o st).1.threats).length ≤ 10 := by
  cases hs : st.isScanning with
  | true => simpa [handleDeepScan, hs] using h
  | false =>
    cases o with
    | failure => simpa [handleDeepScan, hs] using h
    | success r =>
      cases hf : r.findings with
      | none => simpa [handleDeepScan, hs, hf] using h
      | some fs =>
        simp [handleDeepScan, hs, hf, List.length_take]

/-- Registry cap preserved across any sequence of scans. -/
theorem applyScans_threats_le (scans : List ((Nat → String) × ScanOutcome))
    (st : AppState) (h : st.threats.length ≤ 10) :
    ((applyScans scans st).threats).length ≤ 10 := by
  induction scans generalizing st with
  | nil => simpa [applyScans] using h
  | cons p tl ih =>
    exact ih ((handleDeepScan p.1 p.2 st).1) (handleDeepScan_threats_le p.1 p.2 st h)

/-- `ingest` produces one threat per finding. -/
theorem ingestFindings_length (f : Nat → String) (fs : List Finding) :
    (ingestFindings f fs).length = fs.length := by
  simp [ingestFindings, List.enum_length]

/-- Everything `ingest` produces is `mkThreat` of the positional fresh id
and the finding at that position. -/
theorem mem_ingestFindings (f : Nat → String) (fs : List Finding) (t : Threat)
    (h : t ∈ ingestFindings f fs) :
    ∃ i, ∃ hi : i < fs.length, t = mkThreat (f i) (fs.get ⟨i, hi⟩) := by
  simp only [ingestFindings] at h
  obtain ⟨p, hp, ht⟩ := List.mem_map.mp h
  obtain ⟨j, hj, hpe⟩ := List.mem_iff_getElem.mp hp
  have hj2 : j < fs.length := by simpa [List.enum_length] using hj
  have hpv : p = (j, fs[j]) := by
    rw [← hpe, List.getElem_enum]
  refine ⟨j, hj2, ?_⟩
  rw [← ht, hpv]
  rfl

/-- A demo oracle finding for concrete witnesses. -/
def demoFinding : Finding :=
  { type := some "leak", severity := some "high",
    description := some "d", remediation := some "r" }

/-- C5: scan ingestion (lines 135-141).  Each finding becomes a threat
built by `mkThreat` from its positional fresh id, with status `active`;
the new entries are prepended ahead of the previous registry and the
combination is truncated to the first (newest) 10; consequently every
scan preserves the 10-cap and any sequence of scans from the initial
state stays within it. -/
theorem c5_ingest_prepend_capped :
    (∀ (f : Nat → String) (o : ScanOutcome) (st : AppState),
      st.threats.length ≤ 10 → ((handleDeepScan f o st).1.threats).length ≤ 10) ∧
    (∀ scans : List ((Nat → String) × ScanOutcome),
      ((applyScans scans initialState).threats).length ≤ 10) ∧
    (∀ (f : Nat → String) (fs : List Finding) (sc : Option ℚ) (st : AppState),
      st.isScanning = false →
        (handleDeepScan f (ScanOutcome.success
            { findings := some fs, overallThreatScore := sc }) st).1.threats
          = (ingestFindings f fs ++ st.threats).take 10) ∧
    (∀ (f : Nat → String) (fs : List Finding) (t : Threat),
      t ∈ ingestFindings f fs →
        t.status = ThreatStatus.active ∧
        ∃ i, ∃ hi : i < fs.length,
          t.id = f i ∧ t = mkThreat (f i) (fs.get ⟨i, hi⟩)) := by
  refine ⟨handleDeepScan_threats_le, ?_, ?_, ?_⟩
  · intro scans
    exact applyScans_threats_le scans initialState (by simp [initialState])
  · intro f fs sc st h
    simp [handleDeepScan, h]
  · intro f fs t ht
    obtain ⟨i, hi, he⟩ := mem_ingestFindings f fs t ht
    exact ⟨by rw [he]; rfl, i, hi, by rw [he]; rfl, he⟩

/-- C5, witness: a concrete one-finding ingestion from the initial state. -/
theorem c5_witness :
    (handleDeepScan (fun _ => "fresh")
        (ScanOutcome.success { findings := some [demoFinding],
                               overallThreatScore := some 42 })
        initialState).1.threats
      = (ingestFindings (fun _ => "fresh") [demoFinding]
          ++ initialState.threats).take 10 :=
  c5_ingest_prepend_capped.2.2.1 (fun _ => "fresh") [demoFinding] (some 42)
    initialState rfl

/-- A finding violating the response schema: out-of-enum severity and
missing `description`/`remediation`. -/
def malformedFinding : Finding :=
  { type := some "leak", severity := some "not-in-enum",
    description := none, remediation := none }

/-- A parsed response that is valid JSON but does not conform to the
required schema. -/
def malformedResult : ScanResult :=
  { findings := some [malformedFinding], overallThreatScore := some 55 }

/-- C4, counterexample.  The claim says a schema-violating response (out
of enum severity, missing required finding fields) leaves ThreatRegistry
and MetricsState untouched.  But `handleDeepScan` validates nothing after
`JSON.parse` (line 133): the malformed finding is ingested as-is and the
score is written, so from the initial state both the registry and the
metrics change. -/
theorem c4_counterexample :
    (handleDeepScan (fun _ => "tid") (ScanOutcome.success malformedResult)
        initialState).1.threats = [mkThreat "tid" malformedFinding] ∧
    [mkThreat "tid" malformedFinding] ≠ initialState.threats ∧
    (handleDeepScan (fun _ => "tid") (ScanOutcome.success malformedResult)
        initialState).1.metrics.threatLevel = some 55 ∧
    some (55 : ℚ) ≠ initialState.metrics.threatLevel := by
  refine ⟨rfl, by simp [initialState], rfl, by norm_num [initialState]⟩

/-- C4, amended.  Transport/oracle errors and unparseable responses
(`ScanOutcome.failure`), and parsed responses with no findings array
(where `result.findings.map` throws into the same `catch`), leave
ThreatRegistry and MetricsState untouched.  But a parsed response whose
findings array is present is ingested with no schema validation at all:
its items — however malformed — enter the registry, and its
`overallThreatScore` — even absent — is written to `threatLevel`. -/
theorem c4_amended :
    (∀ (f : Nat → String) (st : AppState),
      (handleDeepScan f ScanOutcome.failure st).1.threats = st.threats ∧
      (handleDeepScan f ScanOutcome.failure st).1.metrics = st.metrics) ∧
    (∀ (f : Nat → String) (sc : Option ℚ) (st : AppState),
      (handleDeepScan f (ScanOutcome.success
          { findings := none, overallThreatScore := sc }) st).1.threats
        = st.threats ∧
      (handleDeepScan f (ScanOutcome.success
          { findings := none, overallThreatScore := sc }) st).1.metrics
        = st.metrics) ∧
    (∀ (f : Nat → String) (fs : List Finding) (sc : Option ℚ) (st : AppState),
      st.isScanning = false →
        (handleDeepScan f (ScanOutcome.success
            { findings := some fs, overallThreatScore := sc }) st).1.threats
          = (ingestFindings f fs ++ st.threats).take 10 ∧
        (handleDeepScan f (ScanOutcome.success
            { findings := some fs, overallThreatScore := sc }) st).1.metrics.threatLevel
          = sc) := by
  refine ⟨?_, ?_, ?_⟩
  · intro f st
    cases hs : st.isScanning <;> simp [handleDeepScan, hs]
  · intro f sc st
    cases hs : st.isScanning <;> simp [handleDeepScan, hs]
  · intro f fs sc st h
    constructor <;> simp [handleDeepScan, h]

/-- C4, witness: a failing scan at the concrete initial state changes
neither registry nor metrics, and an empty-findings success writes its
score. -/
theorem c4_witness :
    (handleDeepScan (fun _ => "w") ScanOutcome.failure initialState).1.threats
      = initialState.threats ∧
    (handleDeepScan (fun _ => "w") (ScanOutcome.success
        { findings := some [], overallThreatScore := some 7 })
        initialState).1.metrics.threatLevel = some 7 :=
  ⟨(c4_amended.1 (fun _ => "w") initialState).1,
   (c4_amended.2.2 (fun _ => "w") [] (some 7) initialState rfl).2⟩

/-- C8, counterexample.  The claim says every appended log entry has an
id distinct from all entries already in the store.  But the audit id is
the deterministic `'patch-' + id` (line 158): patching the same threat id
twice (here from the one-active-threat state) appends two entries whose
ids are both `"patch-t1"`, so the second append duplicates an existing
id. -/
theorem c8_counterexample :
    ¬ (((patchThreat "00:00:02" "t1"
          (patchThreat "00:00:01" "t1" patchDemo)).logs).map LogEntry.id).Nodup := by
  decide

/-- C8, amended.  Log ids carry no uniqueness guarantee: the patch audit
entry's id is always the deterministic `"patch-" ++ id`, each patch call
appends it unconditionally, and whenever the store already holds an entry
with that id the store's ids stop being pairwise distinct. -/
theorem c8_amended :
    (∀ (st : AppState) (ts tid : String),
      (patchThreat ts tid st).logs = st.logs ++ [auditLog ts tid] ∧
      (auditLog ts tid).id = "patch-" ++ tid) ∧
    (∀ (st : AppState) (ts tid : String),
      (∃ e ∈ st.logs, e.id = "patch-" ++ tid) →
        ¬ (((patchThreat ts tid st).logs).map LogEntry.id).Nodup) := by
  constructor
  · intro st ts tid
    exact ⟨rfl, rfl⟩
  · rintro st ts tid ⟨e, he, hid⟩ hnd
    rw [show (patchThreat ts tid st).logs = st.logs ++ [auditLog ts tid] from rfl,
      List.map_append] at hnd
    have hd := (List.nodup_append.mp hnd).2.2
    exact hd (List.mem_map.mpr ⟨e, he, hid⟩) (by simp [auditLog])

/-- State whose log store already holds an entry with id "patch-t1". -/
def dupLogState : AppState :=
  { initialState with logs := [auditLog "00:00:01" "t1"] }

/-- C8, witness: the amended duplication statement at a concrete state
already holding a `"patch-t1"` entry. -/
theorem c8_witness :
    ¬ (((patchThreat "00:00:02" "t1" dupLogState).logs).map LogEntry.id).Nodup :=
  c8_amended.2 dupLogState "00:00:02" "t1"
    ⟨auditLog "00:00:01" "t1", by simp [dupLogState], rfl⟩

/-- The level rule as the spec words it (refinement model, for comparison
with the source's `drawLevel`): "a single uniform draw u; u>0.9→error,
else if u>0.8→warning, else info". -/
def specLevelSingleDraw (u : ℚ) : LogLevel :=
  if u > 9/10 then LogLevel.error
  else if u > 8/10 then LogLevel.warning
  else LogLevel.info

/-- The sample space of one tick's level draw: the pair of independent
uniform draws `(u1, u2)` from `Math.random()`, each ranging over `[0,1)`. -/
def unitSquare : Set (ℝ × ℝ) := Set.Ico (0:ℝ) 1 ×ˢ Set.Ico (0:ℝ) 1

/-- The draws on which `drawLevel` yields `error`: first draw above 0.9. -/
def errorEvent : Set (ℝ × ℝ) := {p ∈ unitSquare | 9/10 < p.1}

/-- The draws on which `drawLevel` yields `warning`: first draw at most
0.9 and second draw above 0.8. -/
def warningEvent : Set (ℝ × ℝ) := {p ∈ unitSquare | ¬ 9/10 < p.1 ∧ 8/10 < p.2}

/-- The draws on which `drawLevel` yields `info`. -/
def infoEvent : Set (ℝ × ℝ) := {p ∈ unitSquare | ¬ 9/10 < p.1 ∧ ¬ 8/10 < p.2}

theorem drawLevel_eq_error_iff (u1 u2 : ℚ) :
    drawLevel u1 u2 = LogLevel.error ↔ 9/10 < u1 := by
  unfold drawLevel
  split_ifs with hA hB
  · simp [hA]
  · simp [hA]
  · simp [hA]

theorem drawLevel_eq_warning_iff (u1 u2 : ℚ) :
    drawLevel u1 u2 = LogLevel.warning ↔ (u1 ≤ 9/10 ∧ 8/10 < u2) := by
  unfold drawLevel
  split_ifs with hA hB
  · simp [not_le.mpr hA]
  · simp [not_lt.mp hA, hB]
  · simp [hB]

theorem drawLevel_eq_info_iff (u1 u2 : ℚ) :
    drawLevel u1 u2 = LogLevel.info ↔ (u1 ≤ 9/10 ∧ u2 ≤ 8/10) := by
  unfold drawLevel
  split_ifs with hA hB
  · simp [not_le.mpr hA]
  · simp [not_le.mpr hB]
  · simp [not_lt.mp hA, not_lt.mp hB]

theorem mem_errorEvent_iff (u1 u2 : ℚ) (h0 : 0 ≤ u1) (h1 : u1 < 1)
    (h2 : 0 ≤ u2) (h3 : u2 < 1) :
    (((u1 : ℝ), (u2 : ℝ)) ∈ errorEvent ↔ drawLevel u1 u2 = LogLevel.error) := by
  have e9 : ((9:ℝ)/10) = ((9/10 : ℚ) : ℝ) := by norm_num
  have c0 : (0:ℝ) ≤ (u1:ℝ) := by exact_mod_cast h0
  have c1 : (u1:ℝ) < 1 := by exact_mod_cast h1
  have c2 : (0:ℝ) ≤ (u2:ℝ) := by exact_mod_cast h2
  have c3 : (u2:ℝ) < 1 := by exact_mod_cast h3
  rw [drawLevel_eq_error_iff]
  simp only [errorEvent, unitSquare, Set.mem_sep_iff, Set.mem_prod, Set.mem_Ico]
  constructor
  · rintro ⟨-, h9⟩
    have h9a : ((9/10:ℚ):ℝ) < (u1:ℝ) := by rw [← e9]; exact h9
    exact_mod_cast h9a
  · intro h9
    refine ⟨⟨⟨c0, c1⟩, c2, c3⟩, ?_⟩
    show (9:ℝ)/10 < (u1:ℝ)
    rw [e9]
    exact_mod_cast h9

theorem mem_warningEvent_iff (u1 u2 : ℚ) (h0 : 0 ≤ u1) (h1 : u1 < 1)
    (h2 : 0 ≤ u2) (h3 : u2 < 1) :
    (((u1 : ℝ), (u2 : ℝ)) ∈ warningEvent ↔ drawLevel u1 u2 = LogLevel.warning) := by
  have e9 : ((9:ℝ)/10) = ((9/10 : ℚ) : ℝ) := by norm_num
  have e8 : ((8:ℝ)/10) = ((8/10 : ℚ) : ℝ) := by norm_num
  have c0 : (0:ℝ) ≤ (u1:ℝ) := by exact_mod_cast h0
  have c1 : (u1:ℝ) < 1 := by exact_mod_cast h1
  have c2 : (0:ℝ) ≤ (u2:ℝ) := by exact_mod_cast h2
  have c3 : (u2:ℝ) < 1 := by exact_mod_cast h3
  rw [drawLevel_eq_warning_iff]
  simp only [warningEvent, unitSquare, Set.mem_sep_iff, Set.mem_prod, Set.mem_Ico,
    not_lt]
  constructor
  · rintro ⟨-, h9, h8⟩
    have h9a : (u1:ℝ) ≤ ((9/10:ℚ):ℝ) := by rw [← e9]; exact h9
    have h8a : ((8/10:ℚ):ℝ) < (u2:ℝ) := by rw [← e8]; exact h8
    exact ⟨by exact_mod_cast h9a, by exact_mod_cast h8a⟩
  · rintro ⟨h9, h8⟩
    refine ⟨⟨⟨c0, c1⟩, c2, c3⟩, ?_, ?_⟩
    · show (u1:ℝ) ≤ (9:ℝ)/10
      rw [e9]
      exact_mod_cast h9
    · show (8:ℝ)/10 < (u2:ℝ)
      rw [e8]
      exact_mod_cast h8

theorem mem_infoEvent_iff (u1 u2 : ℚ) (h0 : 0 ≤ u1) (h1 : u1 < 1)
    (h2 : 0 ≤ u2) (h3 : u2 < 1) :
    (((u1 : ℝ), (u2 : ℝ)) ∈ infoEvent ↔ drawLevel u1 u2 = LogLevel.info) := by
  have e9 : ((9:ℝ)/10) = ((9/10 : ℚ) : ℝ) := by norm_num
  have e8 : ((8:ℝ)/10) = ((8/10 : ℚ) : ℝ) := by norm_num
  have c0 : (0:ℝ) ≤ (u1:ℝ) := by exact_mod_cast h0
  have c1 : (u1:ℝ) < 1 := by exact_mod_cast h1
  have c2 : (0:ℝ) ≤ (u2:ℝ) := by exact_mod_cast h2
  have c3 : (u2:ℝ) < 1 := by exact_mod_cast h3
  rw [drawLevel_eq_info_iff]
  simp only [infoEvent, unitSquare, Set.mem_sep_iff, Set.mem_prod, Set.mem_Ico,
    not_lt]
  constructor
  · rintro ⟨-, h9, h8⟩
    have h9a : (u1:ℝ) ≤ ((9/10:ℚ):ℝ) := by rw [← e9]; exact h9
    have h8a : (u2:ℝ) ≤ ((8/10:ℚ):ℝ) := by rw [← e8]; exact h8
    exact ⟨by exact_mod_cast h9a, by exact_mod_cast h8a⟩
  · rintro ⟨h9, h8⟩
    refine ⟨⟨⟨c0, c1⟩, c2, c3⟩, ?_, ?_⟩
    · show (u1:ℝ) ≤ (9:ℝ)/10
      rw [e9]
      exact_mod_cast h9
    · show (u2:ℝ) ≤ (8:ℝ)/10
      rw [e8]
      exact_mod_cast h8

theorem errorEvent_eq : errorEvent = Set.Ioo (9/10 : ℝ) 1 ×ˢ Set.Ico (0:ℝ) 1 := by
  ext p
  simp only [errorEvent, unitSquare, Set.mem_sep_iff, Set.mem_prod, Set.mem_Ico,
    Set.mem_Ioo]
  constructor
  · rintro ⟨⟨⟨hx0, hx1⟩, hy⟩, hx9⟩
    exact ⟨⟨hx9, hx1⟩, hy⟩
  · rintro ⟨⟨hx9, hx1⟩, hy⟩
    exact ⟨⟨⟨by linarith, hx1⟩, hy⟩, hx9⟩

theorem warningEvent_eq :
    warningEvent = Set.Icc (0:ℝ) (9/10) ×ˢ Set.Ioo (8/10 : ℝ) 1 := by
  ext p
  simp only [warningEvent, unitSquare, Set.mem_sep_iff, Set.mem_prod, Set.mem_Ico,
    Set.mem_Icc, Set.mem_Ioo, not_lt]
  constructor
  · rintro ⟨⟨⟨hx0, hx1⟩, hy0, hy1⟩, hx9, hy8⟩
    exact ⟨⟨hx0, hx9⟩, hy8, hy1⟩
  · rintro ⟨⟨hx0, hx9⟩, hy8, hy1⟩
    exact ⟨⟨⟨hx0, by linarith⟩, by linarith, hy1⟩, hx9, by linarith⟩

theorem infoEvent_eq :
    infoEvent = Set.Icc (0:ℝ) (9/10) ×ˢ Set.Icc (0:ℝ) (8/10) := by
  ext p
  simp only [infoEvent, unitSquare, Set.mem_sep_iff, Set.mem_prod, Set.mem_Ico,
    Set.mem_Icc, not_lt]
  constructor
  · rintro ⟨⟨⟨hx0, hx1⟩, hy0, hy1⟩, hx9, hy8⟩
    exact ⟨⟨hx0, hx9⟩, hy0, hy8⟩
  · rintro ⟨⟨hx0, hx9⟩, hy0, hy8⟩
    exact ⟨⟨⟨hx0, by linarith⟩, hy0, by linarith⟩, hx9, hy8⟩

theorem volume_errorEvent :
    MeasureTheory.volume errorEvent = ENNReal.ofReal (1/10) := by
  rw [errorEvent_eq, MeasureTheory.Measure.volume_eq_prod,
    MeasureTheory.Measure.prod_prod, Real.volume_Ioo, Real.volume_Ico,
    ← ENNReal.ofReal_mul (by norm_num)]
  norm_num

theorem volume_warningEvent :
    MeasureTheory.volume warningEvent = ENNReal.ofReal (18/100) := by
  rw [warningEvent_eq, MeasureTheory.Measure.volume_eq_prod,
    MeasureTheory.Measure.prod_prod, Real.volume_Icc, Real.volume_Ioo,
    ← ENNReal.ofReal_mul (by norm_num)]
  norm_num

theorem volume_infoEvent :
    MeasureTheory.volume infoEvent = ENNReal.ofReal (72/100) := by
  rw [infoEvent_eq, MeasureTheory.Measure.volume_eq_prod,
    MeasureTheory.Measure.prod_prod, Real.volume_Icc, Real.volume_Icc,
    ← ENNReal.ofReal_mul (by norm_num)]
  norm_num

/-- C7, counterexample.  The claim says the tick's level is drawn by a
SINGLE uniform draw u (u>0.9→error, else u>0.8→warning, else info).  The
source (line 59) calls `Math.random()` twice.  On the random stream
0.85, 0.5 the code takes u1 = 0.85 ≤ 0.9, then u2 = 0.5 ≤ 0.8 and yields
`info`, while the spec's single-draw rule on the same first value 0.85
yields `warning`. -/
theorem c7_counterexample :
    drawLevel (17/20) (1/2) = LogLevel.info ∧
    specLevelSingleDraw (17/20) = LogLevel.warning ∧
    LogLevel.info ≠ LogLevel.warning := by
  refine ⟨?_, ?_, by decide⟩
  · rw [drawLevel, if_neg (by norm_num), if_neg (by norm_num)]
  · rw [specLevelSingleDraw, if_neg (by norm_num), if_pos (by norm_num)]

/-- C7, amended.  The tick's level comes from TWO independent uniform
draws: `error` iff the first exceeds 0.9, `warning` iff the first is at
most 0.9 and the second exceeds 0.8, `info` otherwise; the tick's
appended entry carries exactly that level.  Under the uniform measure on
the unit square of draw pairs the probabilities are P(error) = 0.10,
P(warning) = 0.18 and P(info) = 0.72 — not the claimed 0.10/0.10/0.80
(0.18 ≠ 0.10). -/
theorem c7_amended :
    (∀ u1 u2 : ℚ, drawLevel u1 u2 = LogLevel.error ↔ 9/10 < u1) ∧
    (∀ u1 u2 : ℚ, drawLevel u1 u2 = LogLevel.warning ↔ (u1 ≤ 9/10 ∧ 8/10 < u2)) ∧
    (∀ u1 u2 : ℚ, drawLevel u1 u2 = LogLevel.info ↔ (u1 ≤ 9/10 ∧ u2 ≤ 8/10)) ∧
    (∀ (inp : TickInput) (st : AppState),
      ((telemetryTick inp st).logs).getLast? = some (mkLogEntry inp) ∧
      (mkLogEntry inp).level = drawLevel inp.u1 inp.u2) ∧
    (∀ u1 u2 : ℚ, 0 ≤ u1 → u1 < 1 → 0 ≤ u2 → u2 < 1 →
      ((((u1 : ℝ), (u2 : ℝ)) ∈ errorEvent ↔ drawLevel u1 u2 = LogLevel.error) ∧
       (((u1 : ℝ), (u2 : ℝ)) ∈ warningEvent ↔ drawLevel u1 u2 = LogLevel.warning) ∧
       (((u1 : ℝ), (u2 : ℝ)) ∈ infoEvent ↔ drawLevel u1 u2 = LogLevel.info))) ∧
    MeasureTheory.volume errorEvent = ENNReal.ofReal (10/100) ∧
    MeasureTheory.volume warningEvent = ENNReal.ofReal (18/100) ∧
    MeasureTheory.volume infoEvent = ENNReal.ofReal (72/100) ∧
    ENNReal.ofReal (18/100) ≠ ENNReal.ofReal (10/100) := by
  refine ⟨drawLevel_eq_error_iff, drawLevel_eq_warning_iff, drawLevel_eq_info_iff,
    ?_, ?_, by rw [volume_errorEvent]; norm_num, volume_warningEvent,
    volume_infoEvent, ?_⟩
  · intro inp st
    exact ⟨by simp [telemetryTick], rfl⟩
  · intro u1 u2 h0 h1 h2 h3
    exact ⟨mem_errorEvent_iff u1 u2 h0 h1 h2 h3,
      mem_warningEvent_iff u1 u2 h0 h1 h2 h3,
      mem_infoEvent_iff u1 u2 h0 h1 h2 h3⟩
  · intro h
    rw [ENNReal.ofReal_eq_ofReal_iff (by norm_num) (by norm_num)] at h
    norm_num at h

/-- C7, witness: the warning-event characterization applied at the
concrete draw pair (0.5, 0.85). -/
theorem c7_witness :
    (((1/2 : ℚ) : ℝ), ((17/20 : ℚ) : ℝ)) ∈ warningEvent ↔
      drawLevel (1/2) (17/20) = LogLevel.warning :=
  (c7_amended.2.2.2.2.1 (1/2) (17/20) (by norm_num) (by norm_num)
    (by norm_num) (by norm_num)).2.1
